import Mathlib

/-!
Shallow embedding of the gbm-mesa gralloc driver core
(`gbm_mesa_driver/gbm_mesa_internals.cpp`) and proofs about it.

Conventions:
* C `uint32_t`/`uint64_t` values are modelled as `Nat`; the operations the
  driver performs on them (bit masks, comparisons, alignment arithmetic)
  never overflow 64 bits for the inputs considered, so no modular
  reduction is needed.
* Fallible C functions returning `int` error codes are modelled with
  `Except Int _` (`.ok` for a `0` return, `.error e` for a nonzero return
  `e`) or with an explicit `Int` error-code component (`0` = success).
* The externally loaded backend (the `gbm_ops` capability table), the
  kernel device-discovery results, `dlopen`/`dlsym` outcomes and the
  kernel `dup`/`fstat` primitives are opaque collaborators of the driver;
  they are modelled as explicit parameters (`GbmOps`, `Env`) so that
  theorems quantify over their behaviour.
* Resource-lifecycle side effects (descriptor open/close, module
  load/unload, backend device create/destroy, descriptor duplication,
  backend import) are recorded in an explicit `Event` list so that
  cleanup and call-count obligations can be stated.
* The layout helper `drv_bo_from_format` (`drv_helpers.c`, part of the
  repository but not under `src/`) is treated as an opaque layout
  computation: the create/import embeddings take an arbitrary layout
  function `lf : Nat → Nat → Nat → Nat → BoLayout` mirroring the helper's
  `(stride, block_height, aligned_height, format)` argument list, and a
  concrete model (`drv_bo_from_format_model`) instantiates witnesses.
-/

set_option autoImplicit false

/-- `ALIGN(x, a)`: round `x` up to the next multiple of `a`
(macro from `util.h`, used at lines 381 and 389 of the source). -/
def ALIGN (x a : Nat) : Nat := ((x + a - 1) / a) * a

/-- `DIV_ROUND_UP(x, y)`: ceiling division (macro from `util.h`,
used at line 403 of the source). -/
def DIV_ROUND_UP (x y : Nat) : Nat := (x + y - 1) / y

/-- `fourcc_code(a, b, c, d)` from `drm_fourcc.h`: little-endian packing
of four characters into a 32-bit format code. -/
def fourcc (a b c d : Char) : Nat :=
  a.toNat + b.toNat * 2 ^ 8 + c.toNat * 2 ^ 16 + d.toNat * 2 ^ 24

def DRM_FORMAT_NV12 : Nat := fourcc 'N' 'V' '1' '2'
def DRM_FORMAT_XBGR8888 : Nat := fourcc 'X' 'B' '2' '4'
def DRM_FORMAT_RGB565 : Nat := fourcc 'R' 'G' '1' '6'
def DRM_FORMAT_BGR565 : Nat := fourcc 'B' 'G' '1' '6'
def DRM_FORMAT_R8 : Nat := fourcc 'R' '8' ' ' ' '
/-- minigbm-private format code (`drv.h`): `fourcc_code('9','9','9','7')`. -/
def DRM_FORMAT_YVU420_ANDROID : Nat := fourcc '9' '9' '9' '7'
/-- minigbm-private format code (`drv.h`): `fourcc_code('9','9','9','8')`. -/
def DRM_FORMAT_FLEX_IMPLEMENTATION_DEFINED : Nat := fourcc '9' '9' '9' '8'
/-- minigbm-private format code (`drv.h`): `fourcc_code('9','9','9','9')`. -/
def DRM_FORMAT_FLEX_YCbCr_420_888 : Nat := fourcc '9' '9' '9' '9'

/-- Modelled from the spec: usage-flag bit constants of `drv.h` (a header
of this repository that is not under `src/`); the bit positions follow
minigbm, and no claim depends on the concrete positions, only on the
masks being fixed bit patterns. -/
def BO_USE_SCANOUT : Nat := 2 ^ 0
def BO_USE_SW_READ_RARELY : Nat := 2 ^ 6
def BO_USE_SW_READ_OFTEN : Nat := 2 ^ 7
def BO_USE_SW_WRITE_RARELY : Nat := 2 ^ 9
def BO_USE_SW_WRITE_OFTEN : Nat := 2 ^ 10
def BO_USE_HW_VIDEO_ENCODER : Nat := 2 ^ 13
def BO_USE_CAMERA_WRITE : Nat := 2 ^ 14
def BO_USE_CAMERA_READ : Nat := 2 ^ 15
def BO_USE_HW_VIDEO_DECODER : Nat := 2 ^ 18
def BO_USE_FRONT_RENDERING : Nat := 2 ^ 19

/-- Modelled from the spec: `BO_USE_SW_MASK` of `drv_priv.h` (software /
CPU access usage mask; the header is not under `src/`). -/
def BO_USE_SW_MASK : Nat :=
  BO_USE_SW_READ_RARELY ||| BO_USE_SW_READ_OFTEN |||
  BO_USE_SW_WRITE_RARELY ||| BO_USE_SW_WRITE_OFTEN ||| BO_USE_FRONT_RENDERING

/-- Output pair of `gbm_mesa_resolve_format_and_use_flags`
(the two out-parameters `*out_format` and `*out_use_flags`). -/
structure ResolvedFormat where
  out_format : Nat
  out_use_flags : Nat
deriving Repr, DecidableEq

/-- Embedding of `gbm_mesa_resolve_format_and_use_flags`
(source lines 54-77).  The C `switch` on `format` is translated to an
if-chain; the three `case` constants are pairwise distinct. -/
def gbm_mesa_resolve_format_and_use_flags (format use_flags : Nat) :
    ResolvedFormat :=
  if format = DRM_FORMAT_FLEX_IMPLEMENTATION_DEFINED then
    if use_flags &&& (BO_USE_CAMERA_READ ||| BO_USE_CAMERA_WRITE) ≠ 0 then
      { out_format := DRM_FORMAT_NV12, out_use_flags := use_flags }
    else
      { out_format := DRM_FORMAT_XBGR8888, out_use_flags := use_flags }
  else if format = DRM_FORMAT_FLEX_YCbCr_420_888 then
    { out_format := DRM_FORMAT_NV12, out_use_flags := use_flags }
  else if format = DRM_FORMAT_BGR565 then
    { out_format := DRM_FORMAT_RGB565, out_use_flags := use_flags }
  else
    { out_format := format, out_use_flags := use_flags }

/-- Result of one `drv_bo_from_format` layout computation: the plane count
and total byte size it stores into `bo->meta` (per-plane strides, sizes
and offsets are not needed by any claim and are omitted). -/
structure BoLayout where
  num_planes : Nat
  total_size : Nat
deriving Repr, DecidableEq

/-- `struct alloc_args` of `gbm_mesa_wrapper.h` as filled by the create
path (lines 365-373); the `gbm` device pointer is carried by the session
and omitted here. -/
structure AllocArgs where
  width : Nat
  height : Nat
  drm_format : Nat
  force_linear : Bool
  needs_map_stride : Bool
  use_scanout : Bool
deriving Repr, DecidableEq

/-- Output fields of `struct alloc_args` filled by a successful
`wrapper->alloc` call. -/
structure AllocOut where
  out_stride : Nat
  out_map_stride : Nat
  out_modifier : Nat
  out_fd : Nat
deriving Repr, DecidableEq

/-- The backend capability table (`struct gbm_ops` of
`gbm_mesa_wrapper.h`), an opaque collaborator obtained by dynamic
loading.  `get_gbm_format` returns `0` when the backend has no direct
mapping for a format.  `alloc` models the C `int`-returning allocator:
`.ok` for a `0` return with the output fields, `.error e` for a nonzero
return `e`.  `dev_create` and `import_bo` return `none` for a `NULL`
pointer result.  Opaque handles (`gbm_device`, `gbm_bo`, mapped address)
are modelled as `Nat`. -/
structure GbmOps where
  get_gbm_format : Nat → Nat
  dev_create : Nat → Option Nat
  alloc : AllocArgs → Except Int AllocOut
  import_bo : Nat → Nat → Nat → Nat → Nat → Nat → Option Nat
  map_bo : Nat → Nat → Nat → Nat

/-- `struct GbmMesaBoPriv` (lines 319-332).  `fds` holds the per-plane
kernel descriptors (the `UniqueFd fds[DRV_MAX_PLANES]` array restricted
to the buffer's plane count), `gbm_bo` the optional backend mapping
handle (`none` = `nullptr`).  The `drv` session reference only keeps the
session alive and is not needed by any claim, so it is omitted. -/
structure GbmMesaBoPriv where
  map_stride : Nat
  fds : List Nat
  gbm_bo : Option Nat
deriving Repr, DecidableEq

/-- The fields of `bo->meta` read or written by this driver.  `width`,
`height` and `format` are filled by the host framework before the driver
entry points run. -/
structure BoMeta where
  width : Nat
  height : Nat
  format : Nat
  num_planes : Nat
  total_size : Nat
  format_modifier : Nat
deriving Repr, DecidableEq

/-- `struct bo`: host-owned buffer record.  `handles` are the per-plane
unique keys (`bo->handles[plane].u64`), `priv` the driver-private state. -/
structure Bo where
  meta : BoMeta
  handles : List Nat
  priv : Option GbmMesaBoPriv
deriving Repr, DecidableEq

/-- `struct GbmMesaDriver` (lines 124-140): one driver session.  `none`
components model `nullptr` / invalid `UniqueFd`. -/
structure GbmMesaDriver where
  wrapper : Option GbmOps
  gbm_dev : Option Nat
  dl_handle : Option Nat
  gbm_node_fd : Option Nat
  gpu_node_fd : Option Nat

/-- The driver context as far as this code touches it: `drv->priv` caches
the session (`GbmMesaDriverPriv`, lines 142-144). -/
structure DrvCtx where
  priv : Option GbmMesaDriver

/-- Resource-lifecycle events recorded by the embedding. -/
inductive Event where
  | openFd : Nat → Event
  | closeFd : Nat → Event
  | dupCall : Nat → Event
  | dlopenCall : Event
  | dlcloseCall : Event
  | devCreateCall : Event
  | devDestroyCall : Event
  | gbmImportCall : Event
deriving Repr, DecidableEq

/-- External world as seen by session construction: results of kernel
device discovery (`is_separate_dc_gpu`, `open_drm_dev`), of
`dlopen`/`dlsym`/`get_gbm_ops`, and the kernel `dup`/`fstat` primitives.
`gpu_fd` is the render-node descriptor kept by `is_separate_dc_gpu`;
`kms_fd` is the first display-capable card-node descriptor, if any. -/
structure Env where
  gpu_fd : Option Nat
  separate_dc : Bool
  kms_fd : Option Nat
  dlopen_ok : Bool
  get_ops_sym : Bool
  ops : Option GbmOps
  dup_fd : Nat → Nat
  fstat_ino : Nat → Nat

/-- `struct drv_import_fd_data` as read by `gbm_mesa_bo_import`. -/
structure ImportData where
  fds : List Nat
  width : Nat
  height : Nat
  format : Nat
  strides : List Nat
  format_modifier : Nat
  use_flags : Nat

/-- Result of a successful `gbm_mesa_bo_map`: the caller-supplied `vma`
record's length and the mapped address returned by the backend. -/
structure VmaRes where
  length : Nat
  addr : Nat
deriving Repr, DecidableEq

/-- Embedding of `gbm_mesa_inode_to_handle` (lines 334-345): every plane
key becomes the inode number (`fstat` → `st_ino`) of that plane's
descriptor.  Both call sites set `bo->priv` immediately before calling;
on a `none` priv the C code would dereference null, and the record is
returned unchanged here (the branch is unreachable from the call sites).
-/
def gbm_mesa_inode_to_handle (fstat_ino : Nat → Nat) (bo : Bo) : Bo :=
  match bo.priv with
  | none => bo
  | some p => { bo with handles := p.fds.map fstat_ino }

/-- Embedding of the destructor `GbmMesaDriver::~GbmMesaDriver`
(lines 125-132) plus the implicit member destructions: first the
destructor body (destroy the backend device if present, then unload the
module if present), then the `UniqueFd` members in reverse declaration
order (`gpu_node_fd`, then `gbm_node_fd`), each closing its descriptor.
-/
def GbmMesaDriver_destroy (d : GbmMesaDriver) : List Event :=
  (if d.gbm_dev.isSome then [Event.devDestroyCall] else []) ++
  (if d.dl_handle.isSome then [Event.dlcloseCall] else []) ++
  (match d.gpu_node_fd with | some f => [Event.closeFd f] | none => []) ++
  (match d.gbm_node_fd with | some f => [Event.closeFd f] | none => [])

/-- Continuation of session construction after device discovery
(lines 269-299 of `gbm_mesa_get_or_init_driver`): check the selected
device node, load the backend module, resolve the entry-point symbol,
obtain the capability table and create the backend device.  Every early
`return nullptr` runs the session destructor on the partially
constructed session `d1`/`d2`/`d3` (the owning `shared_ptr` goes out of
scope).  `ev1` is the event prefix accumulated by discovery. -/
def gbm_mesa_init_driver_rest (env : Env) (d1 : GbmMesaDriver)
    (ev1 : List Event) : Option GbmMesaDriver × List Event :=
  match d1.gbm_node_fd with
  | none => (none, ev1 ++ GbmMesaDriver_destroy d1)
  | some node_fd =>
    if !env.dlopen_ok then (none, ev1 ++ GbmMesaDriver_destroy d1)
    else
      let d2 := { d1 with dl_handle := some 1 }
      let ev2 := ev1 ++ [Event.dlopenCall]
      if !env.get_ops_sym then (none, ev2 ++ GbmMesaDriver_destroy d2)
      else
        match env.ops with
        | none => (none, ev2 ++ GbmMesaDriver_destroy d2)
        | some ops =>
          let d3 := { d2 with wrapper := some ops }
          match ops.dev_create node_fd with
          | none =>
            (none, ev2 ++ [Event.devCreateCall] ++ GbmMesaDriver_destroy d3)
          | some dev =>
            (some { d3 with gbm_dev := some dev },
             ev2 ++ [Event.devCreateCall])

/-- Embedding of the construction half of `gbm_mesa_get_or_init_driver`
(lines 244-303): device discovery (lines 244-267: keep the GPU render
node, then either search for a separate KMS card node or `dup` the GPU
node), followed by `gbm_mesa_init_driver_rest`.  Returns the
constructed session (or `none`) together with the resource events in
program order. -/
def gbm_mesa_init_driver (env : Env) (mapper_sphal : Bool) :
    Option GbmMesaDriver × List Event :=
  let d0 : GbmMesaDriver :=
    { wrapper := none, gbm_dev := none, dl_handle := none,
      gbm_node_fd := none, gpu_node_fd := env.gpu_fd }
  let gpuEv : List Event :=
    match env.gpu_fd with | some f => [Event.openFd f] | none => []
  let step1 : GbmMesaDriver × List Event :=
    if env.separate_dc && !mapper_sphal then
      ({ d0 with gbm_node_fd := env.kms_fd },
       gpuEv ++
         (match env.kms_fd with | some f => [Event.openFd f] | none => []))
    else
      ({ d0 with gbm_node_fd := env.gpu_fd.map env.dup_fd },
       gpuEv ++
         (match env.gpu_fd with
          | some f => [Event.openFd (env.dup_fd f)]
          | none => []))
  gbm_mesa_init_driver_rest env step1.1 step1.2

/-- Embedding of `gbm_mesa_get_or_init_driver` (lines 238-309): return
the cached session if `drv->priv` is set, otherwise construct one and,
on success, cache it on the context. -/
def gbm_mesa_get_or_init_driver (env : Env) (mapper_sphal : Bool)
    (ctx : DrvCtx) : Option GbmMesaDriver × DrvCtx × List Event :=
  match ctx.priv with
  | some drv => (some drv, ctx, [])
  | none =>
    match gbm_mesa_init_driver env mapper_sphal with
    | (some d, ev) => (some d, { priv := some d }, ev)
    | (none, ev) => (none, ctx, ev)

/-- Camera-usage test of line 378:
`use_flags & (BO_USE_CAMERA_READ | BO_USE_CAMERA_WRITE)`. -/
def createCamera (use_flags : Nat) : Bool :=
  (use_flags &&& (BO_USE_CAMERA_READ ||| BO_USE_CAMERA_WRITE)) != 0

/-- The initial `alloc_args` of lines 365-373. -/
def create_initial_args (wr : GbmOps) (width height format use_flags : Nat) :
    AllocArgs :=
  { width := width, height := height,
    drm_format := if wr.get_gbm_format format ≠ 0 then format else 0,
    force_linear := (use_flags &&& BO_USE_SW_MASK) != 0,
    needs_map_stride := (use_flags &&& BO_USE_SW_MASK) != 0,
    use_scanout := (use_flags &&& BO_USE_SCANOUT) != 0 }

/-- The request after the camera adjustment of lines 378-383: camera
usage forces scanout and rounds the width up to a multiple of 32. -/
def create_args1 (wr : GbmOps) (width height format use_flags : Nat) :
    AllocArgs :=
  let a0 := create_initial_args wr width height format use_flags
  if createCamera use_flags then
    { a0 with use_scanout := true, width := ALIGN a0.width 32 }
  else a0

/-- Line 385: the spoofed-format path is taken iff the backend reported
no direct mapping for the requested format (`alloc_args.drm_format == 0`).
-/
def create_spoofed (wr : GbmOps) (format : Nat) : Bool :=
  wr.get_gbm_format format == 0

/-- `size_align` as set by lines 354 and 382. -/
def create_size_align (use_flags : Nat) : Nat :=
  if createCamera use_flags then 4096 else 1

/-- The layout computed at line 387 on the spoofed path:
`drv_bo_from_format(bo, alloc_args.width, 1, alloc_args.height, format)`
with the camera-adjusted request. -/
def create_sp_layout (lf : Nat → Nat → Nat → Nat → BoLayout) (wr : GbmOps)
    (width height format use_flags : Nat) : BoLayout :=
  lf (create_args1 wr width height format use_flags).width 1
    (create_args1 wr width height format use_flags).height format

/-- Line 389: the spoofed total size, rounded up to the size alignment. -/
def create_sp_total (lf : Nat → Nat → Nat → Nat → BoLayout) (wr : GbmOps)
    (width height format use_flags : Nat) : Nat :=
  ALIGN (create_sp_layout lf wr width height format use_flags).total_size
    (create_size_align use_flags)

/-- The request after the spoofing rewrite of lines 385-396: an
unrecognized format becomes a forced-linear R8 allocation of
`total_size × 1`. -/
def create_args2 (lf : Nat → Nat → Nat → Nat → BoLayout) (wr : GbmOps)
    (width height format use_flags : Nat) : AllocArgs :=
  let a1 := create_args1 wr width height format use_flags
  if create_spoofed wr format then
    { a1 with
      drm_format := DRM_FORMAT_R8,
      width := create_sp_total lf wr width height format use_flags,
      height := 1, force_linear := true }
  else a1

/-- The 1-D-to-2-D reshape of lines 398-407: an R8 request of height 1 is
turned into a `4096 × ceil(width / 4096)` request with the map-stride
computation suppressed. -/
def reshape_r8 (a : AllocArgs) : AllocArgs :=
  if a.drm_format == DRM_FORMAT_R8 && a.height == 1 then
    { a with
      needs_map_stride := false,
      height := DIV_ROUND_UP a.width 4096, width := 4096 }
  else a

/-- The request of the first backend allocation attempt. -/
def create_request (lf : Nat → Nat → Nat → Nat → BoLayout) (wr : GbmOps)
    (width height format use_flags : Nat) : AllocArgs :=
  reshape_r8 (create_args2 lf wr width height format use_flags)

/-- The allocation attempt logic of lines 409-415: one attempt, and, if
it fails and scanout was not a hard (camera) requirement, exactly one
retry with scanout intent cleared.  Returns the final outcome (with the
request that succeeded) and the list of attempted requests. -/
def alloc_with_retry (wr : GbmOps) (scanout_strong : Bool) (a : AllocArgs) :
    Except Int (AllocArgs × AllocOut) × List AllocArgs :=
  match wr.alloc a with
  | .ok out => (.ok (a, out), [a])
  | .error e =>
    if !scanout_strong then
      match wr.alloc { a with use_scanout := false } with
      | .ok out =>
        (.ok ({ a with use_scanout := false }, out),
         [a, { a with use_scanout := false }])
      | .error e2 => (.error e2, [a, { a with use_scanout := false }])
    else (.error e, [a])

/-- Embedding of `gbm_mesa_bo_create` after the session has been obtained
(lines 363-442).  Returns the C `int` result together with the (possibly
mutated) buffer record, and the list of backend allocation requests that
were attempted.  On the spoofed path `bo->meta` is written before the
allocation attempt (line 387-389) and therefore stays written on
failure; `bo->priv` is only written on success (lines 428-440). -/
def gbm_mesa_bo_create_core (wr : GbmOps)
    (lf : Nat → Nat → Nat → Nat → BoLayout) (fstat_ino : Nat → Nat)
    (bo : Bo) (width height format use_flags : Nat) :
    (Int × Bo) × List AllocArgs :=
  let spoofed := create_spoofed wr format
  let meta1 :=
    if spoofed then
      { bo.meta with
        num_planes :=
          (create_sp_layout lf wr width height format use_flags).num_planes,
        total_size := create_sp_total lf wr width height format use_flags }
    else bo.meta
  match alloc_with_retry wr (createCamera use_flags)
      (create_request lf wr width height format use_flags) with
  | (.error e, attempts) => ((e, { bo with meta := meta1 }), attempts)
  | (.ok (af, out), attempts) =>
    let meta2 :=
      if spoofed then meta1
      else
        { bo.meta with
          num_planes := (lf out.out_stride 1 af.height format).num_planes,
          total_size := (lf out.out_stride 1 af.height format).total_size }
    let meta3 := { meta2 with format_modifier := out.out_modifier }
    let priv : GbmMesaBoPriv :=
      { map_stride := out.out_map_stride,
        fds := List.replicate meta3.num_planes out.out_fd, gbm_bo := none }
    ((0, gbm_mesa_inode_to_handle fstat_ino
        { bo with meta := meta3, priv := some priv }), attempts)

/-- Embedding of the full `gbm_mesa_bo_create` (lines 347-443): obtain or
construct the session (mapping-only = false), then run the allocation
core.  A failed session construction surfaces `-EINVAL` (`-22`) with the
buffer record untouched (lines 357-361).  The `none` result models the
null-wrapper dereference that the C code would perform if a cached
session had a null capability table (unreachable for sessions built by
`gbm_mesa_init_driver`). -/
def gbm_mesa_bo_create (env : Env) (lf : Nat → Nat → Nat → Nat → BoLayout)
    (ctx : DrvCtx) (bo : Bo) (width height format use_flags : Nat) :
    Option ((Int × Bo × DrvCtx) × List Event × List AllocArgs) :=
  match gbm_mesa_get_or_init_driver env false ctx with
  | (none, ctx2, ev) => some (((-22 : Int), bo, ctx2), ev, [])
  | (some drv, ctx2, ev) =>
    match drv.wrapper with
    | none => none
    | some wr =>
      let r := gbm_mesa_bo_create_core wr lf env.fstat_ino bo
        width height format use_flags
      some ((r.1.1, r.1.2, ctx2), ev, r.2)

/-- Embedding of `gbm_mesa_bo_import` (lines 445-480).  A record that
already holds private state is rejected with `-EINVAL` before anything
else happens (lines 447-450).  Otherwise every supplied plane descriptor
is `dup`'d into the new private state (lines 451-454); when software
access is requested the session is obtained in mapping-only mode and the
first plane is imported into the backend (lines 456-473), substituting
the R8 `total_size × 1` shape when the backend does not recognize the
supplied format.  The `none` result models the null dereference the C
code performs when the session cannot be obtained in the software-access
branch (line 458-459 uses the session without a null check). -/
def gbm_mesa_bo_import (env : Env) (ctx : DrvCtx) (bo : Bo)
    (data : ImportData) :
    Option ((Int × Bo × DrvCtx) × List Event) :=
  match bo.priv with
  | some _ => some (((-22 : Int), bo, ctx), [])
  | none =>
    let fds := (List.range bo.meta.num_planes).map fun p =>
      env.dup_fd (data.fds.getD p 0)
    let dupEv := (List.range bo.meta.num_planes).map fun p =>
      Event.dupCall (data.fds.getD p 0)
    let priv0 : GbmMesaBoPriv :=
      { map_stride := 0, fds := fds, gbm_bo := none }
    if (data.use_flags &&& BO_USE_SW_MASK) != 0 then
      match gbm_mesa_get_or_init_driver env true ctx with
      | (none, _, _) => none
      | (some drv, ctx2, ev) =>
        match drv.wrapper with
        | none => none
        | some wr =>
          let unknown := wr.get_gbm_format data.format == 0
          let s_width := if unknown then bo.meta.total_size else data.width
          let s_height := if unknown then 1 else data.height
          let s_format := if unknown then DRM_FORMAT_R8 else data.format
          let priv1 :=
            { priv0 with
              gbm_bo := wr.import_bo (data.fds.getD 0 0) s_width s_height
                (data.strides.getD 0 0) data.format_modifier s_format }
          some (((0 : Int),
                 gbm_mesa_inode_to_handle env.fstat_ino
                   { bo with priv := some priv1 },
                 ctx2),
                dupEv ++ ev ++ [Event.gbmImportCall])
    else
      some (((0 : Int),
             gbm_mesa_inode_to_handle env.fstat_ino
               { bo with priv := some priv0 },
             ctx),
            dupEv)

/-- Embedding of `gbm_mesa_bo_map` (lines 496-519).  `none` models the
paths on which the C code cannot proceed: a failed session (null
dereference), a null `bo->priv`, or the `assert(priv->gbm_bo != nullptr)`
precondition violation at line 504. -/
def gbm_mesa_bo_map (env : Env) (ctx : DrvCtx) (bo : Bo) : Option VmaRes :=
  match gbm_mesa_get_or_init_driver env true ctx with
  | (none, _, _) => none
  | (some drv, _, _) =>
    match drv.wrapper with
    | none => none
    | some wr =>
      match bo.priv with
      | none => none
      | some priv =>
        match priv.gbm_bo with
        | none => none
        | some b =>
          let unknown := wr.get_gbm_format bo.meta.format == 0
          let s_width := if unknown then bo.meta.total_size else bo.meta.width
          let s_height := if unknown then 1 else bo.meta.height
          some { length := bo.meta.total_size,
                 addr := wr.map_bo b s_width s_height }

/-- Recognizer for module-load events. -/
def isDlopenEvent : Event → Bool
  | Event.dlopenCall => true
  | _ => false

/-- Recognizer for module-unload events. -/
def isDlcloseEvent : Event → Bool
  | Event.dlcloseCall => true
  | _ => false

/-- Recognizer for backend device-creation calls. -/
def isDevCreateEvent : Event → Bool
  | Event.devCreateCall => true
  | _ => false

/-- Recognizer for backend device-destruction calls. -/
def isDevDestroyEvent : Event → Bool
  | Event.devDestroyCall => true
  | _ => false

/-- Descriptors recorded as acquired in an event list, in order. -/
def openedFds (ev : List Event) : List Nat :=
  ev.filterMap fun e => match e with | .openFd f => some f | _ => none

/-- Descriptors recorded as closed in an event list, in order. -/
def closedFds (ev : List Event) : List Nat :=
  ev.filterMap fun e => match e with | .closeFd f => some f | _ => none

/-- Modelled from the spec: concrete instance of the layout helper
`drv_bo_from_format` (`drv_helpers.c`, part of the repository but not
under `src/`), used only to instantiate witnesses and counterexamples:
NV12 as two semi-planar planes (full-resolution luma plus half-height
chroma at the same stride), 32-bit and 16-bit RGB at 4 and 2 bytes per
pixel, and every other (single-plane, byte-packed) format at 1 byte per
pixel, matching minigbm's layout table for the formats used here. -/
def drv_bo_from_format_model (width _block_height height format : Nat) :
    BoLayout :=
  if format == DRM_FORMAT_NV12 then
    { num_planes := 2,
      total_size := width * height + width * DIV_ROUND_UP height 2 }
  else if format == DRM_FORMAT_XBGR8888 then
    { num_planes := 1, total_size := 4 * width * height }
  else if format == DRM_FORMAT_RGB565 then
    { num_planes := 1, total_size := 2 * width * height }
  else
    { num_planes := 1, total_size := width * height }

/-- Test backend for witnesses: recognizes R8 and XBGR8888 (as minigbm's
mesa wrapper does), allocates successfully with stride = requested width
and descriptor 7. -/
def wrTest : GbmOps :=
  { get_gbm_format := fun f =>
      if f == DRM_FORMAT_R8 || f == DRM_FORMAT_XBGR8888 then f else 0,
    dev_create := fun _ => some 10,
    alloc := fun a =>
      .ok { out_stride := a.width, out_map_stride := a.width,
            out_modifier := 0, out_fd := 7 },
    import_bo := fun _ _ _ _ _ _ => some 11,
    map_bo := fun _ _ _ => 4096 }

/-- Test backend whose allocation always fails with `-ENOMEM` (`-12`). -/
def wrFail : GbmOps :=
  { wrTest with alloc := fun _ => .error (-12 : Int) }

/-- An empty buffer record as handed to `gbm_mesa_bo_create` by the host
framework. -/
def boEmpty : Bo :=
  { meta := { width := 0, height := 0, format := 0, num_planes := 0,
              total_size := 0, format_modifier := 0 },
    handles := [], priv := none }

/-- A populated buffer record (used to exercise the import misuse path). -/
def boUsed : Bo :=
  { boEmpty with
    priv := some { map_stride := 0, fds := [4], gbm_bo := none } }

/-- Test environment for witnesses: a non-separate-display GPU on
descriptor 3, module and symbol found, capability table `wrTest`.
`dup` returns `fd + 100` and `fstat` reports inode `fd % 100`, so a
duplicated descriptor reports the same inode as its source. -/
def envTest : Env :=
  { gpu_fd := some 3, separate_dc := false, kms_fd := none,
    dlopen_ok := true, get_ops_sym := true, ops := some wrTest,
    dup_fd := fun f => f + 100, fstat_ino := fun f => f % 100 }

/-- Test environment whose module load (`dlopen`) fails. -/
def envNoModule : Env := { envTest with dlopen_ok := false }

/-- An empty driver context. -/
def ctxEmpty : DrvCtx := { priv := none }

/-- The session constructed from `envTest`: GPU node 3, gbm node
`dup(3) = 103`, module handle 1, capability table `wrTest`, backend
device handle 10. -/
def dTest : GbmMesaDriver :=
  { wrapper := some wrTest, gbm_dev := some 10, dl_handle := some 1,
    gbm_node_fd := some 103, gpu_node_fd := some 3 }

/-- Import metadata for witnesses: one plane on descriptor 5, no
software-access usage. -/
def dataTest : ImportData :=
  { fds := [5], width := 64, height := 64, format := DRM_FORMAT_XBGR8888,
    strides := [256], format_modifier := 0, use_flags := 0 }

/-- Import metadata for witnesses: like `dataTest` but requesting
software (CPU) access. -/
def dataTestSw : ImportData :=
  { dataTest with use_flags := BO_USE_SW_READ_OFTEN }

/-- Import metadata for witnesses: descriptor 105, which under `envTest`
is a `dup` of descriptor 5 (same inode 5). -/
def dataDup : ImportData := { dataTest with fds := [105] }

/-- Import metadata for witnesses: descriptor 6, an independent
allocation with inode 6. -/
def dataOther : ImportData := { dataTest with fds := [6] }

/-- An empty single-plane buffer record (the host framework sets the
plane count before import). -/
def boOnePlane : Bo :=
  { boEmpty with meta := { boEmpty.meta with num_planes := 1 } }

/-- Expected result record of importing `dataTest` into `boOnePlane`
under `envTest`: plane descriptor `dup(5) = 105`, plane key = inode 5. -/
def boRes5 : Bo :=
  { meta := boOnePlane.meta, handles := [5],
    priv := some { map_stride := 0, fds := [105], gbm_bo := none } }

/-- Expected result record of importing `dataOther` into `boOnePlane`
under `envTest`: plane descriptor `dup(6) = 106`, plane key = inode 6. -/
def boRes6 : Bo :=
  { meta := boOnePlane.meta, handles := [6],
    priv := some { map_stride := 0, fds := [106], gbm_bo := none } }

/-- Expected result record of importing `dataDup` into `boOnePlane`
under `envTest`: plane descriptor `dup(105) = 205`, plane key = inode 5
(same underlying allocation as `dataTest`, hence the same key). -/
def boResDup : Bo :=
  { meta := boOnePlane.meta, handles := [5],
    priv := some { map_stride := 0, fds := [205], gbm_bo := none } }

/-!  ## Theorems  -/

/-- Claim C2: resolving the generic implementation-defined format yields
NV12 under camera usage and XBGR8888 otherwise; the flexible YCbCr 4:2:0
format always yields NV12; BGR565 yields RGB565; every other format is
unchanged; the usage flags pass through untouched. -/
theorem claim_C2_format_resolution (format use_flags : Nat) :
    (format = DRM_FORMAT_FLEX_IMPLEMENTATION_DEFINED →
      (use_flags &&& (BO_USE_CAMERA_READ ||| BO_USE_CAMERA_WRITE) ≠ 0 →
        (gbm_mesa_resolve_format_and_use_flags format use_flags).out_format =
          DRM_FORMAT_NV12) ∧
      (use_flags &&& (BO_USE_CAMERA_READ ||| BO_USE_CAMERA_WRITE) = 0 →
        (gbm_mesa_resolve_format_and_use_flags format use_flags).out_format =
          DRM_FORMAT_XBGR8888)) ∧
    (format = DRM_FORMAT_FLEX_YCbCr_420_888 →
      (gbm_mesa_resolve_format_and_use_flags format use_flags).out_format =
        DRM_FORMAT_NV12) ∧
    (format = DRM_FORMAT_BGR565 →
      (gbm_mesa_resolve_format_and_use_flags format use_flags).out_format =
        DRM_FORMAT_RGB565) ∧
    (format ≠ DRM_FORMAT_FLEX_IMPLEMENTATION_DEFINED →
      format ≠ DRM_FORMAT_FLEX_YCbCr_420_888 →
      format ≠ DRM_FORMAT_BGR565 →
      (gbm_mesa_resolve_format_and_use_flags format use_flags).out_format =
        format) ∧
    (gbm_mesa_resolve_format_and_use_flags format use_flags).out_use_flags =
      use_flags := by
  have d1 : DRM_FORMAT_FLEX_YCbCr_420_888 ≠
      DRM_FORMAT_FLEX_IMPLEMENTATION_DEFINED := by decide
  have d2 : DRM_FORMAT_BGR565 ≠ DRM_FORMAT_FLEX_IMPLEMENTATION_DEFINED := by
    decide
  have d3 : DRM_FORMAT_BGR565 ≠ DRM_FORMAT_FLEX_YCbCr_420_888 := by decide
  unfold gbm_mesa_resolve_format_and_use_flags
  by_cases h1 : format = DRM_FORMAT_FLEX_IMPLEMENTATION_DEFINED <;>
    by_cases h2 : format = DRM_FORMAT_FLEX_YCbCr_420_888 <;>
      by_cases h3 : format = DRM_FORMAT_BGR565 <;>
        by_cases h4 :
            use_flags &&& (BO_USE_CAMERA_READ ||| BO_USE_CAMERA_WRITE) = 0 <;>
          simp_all

/-- Witness for C2 at concrete inputs: the implementation-defined format
with camera-read usage resolves to NV12, and without camera usage to
XBGR8888. -/
theorem claim_C2_format_resolution_witness :
    (gbm_mesa_resolve_format_and_use_flags
        DRM_FORMAT_FLEX_IMPLEMENTATION_DEFINED BO_USE_CAMERA_READ).out_format =
      DRM_FORMAT_NV12 ∧
    (gbm_mesa_resolve_format_and_use_flags
        DRM_FORMAT_FLEX_IMPLEMENTATION_DEFINED 0).out_format =
      DRM_FORMAT_XBGR8888 :=
  ⟨((claim_C2_format_resolution DRM_FORMAT_FLEX_IMPLEMENTATION_DEFINED
      BO_USE_CAMERA_READ).1 rfl).1 (by decide),
   ((claim_C2_format_resolution DRM_FORMAT_FLEX_IMPLEMENTATION_DEFINED
      0).1 rfl).2 (by decide)⟩

theorem alloc_with_retry_first_ok (wr : GbmOps) (s : Bool) (a : AllocArgs)
    (out : AllocOut) (h : wr.alloc a = .ok out) :
    alloc_with_retry wr s a = (.ok (a, out), [a]) := by
  unfold alloc_with_retry; rw [h]

theorem alloc_with_retry_strong_err (wr : GbmOps) (a : AllocArgs) (e : Int)
    (h : wr.alloc a = .error e) :
    alloc_with_retry wr true a = (.error e, [a]) := by
  unfold alloc_with_retry; rw [h]; rfl

theorem alloc_with_retry_retry_ok (wr : GbmOps) (a : AllocArgs) (e : Int)
    (out : AllocOut) (h : wr.alloc a = .error e)
    (h2 : wr.alloc { a with use_scanout := false } = .ok out) :
    alloc_with_retry wr false a =
      (.ok ({ a with use_scanout := false }, out),
       [a, { a with use_scanout := false }]) := by
  unfold alloc_with_retry; rw [h]; simp [h2]

theorem alloc_with_retry_retry_err (wr : GbmOps) (a : AllocArgs) (e e2 : Int)
    (h : wr.alloc a = .error e)
    (h2 : wr.alloc { a with use_scanout := false } = .error e2) :
    alloc_with_retry wr false a =
      (.error e2, [a, { a with use_scanout := false }]) := by
  unfold alloc_with_retry; rw [h]; simp [h2]

/-- Claim C1 (code behaviour at the failing input): creating a 640×480
NV12 buffer through a backend that cannot allocate NV12 directly (so the
layout has two planes) succeeds, but both plane descriptor slots receive
the very same backend descriptor `7` — the backend's descriptor is
stored, not duplicated, into every plane slot (`UniqueFd(alloc_args.out_fd)`
at line 430, with no `dup`), so the slots alias one descriptor instead of
each owning an independent duplicate. -/
theorem claim_C1_plane_descriptors_shared :
    (gbm_mesa_bo_create_core wrTest drv_bo_from_format_model (fun _ => 99)
        boEmpty 640 480 DRM_FORMAT_NV12 0).1.1 = 0 ∧
    (gbm_mesa_bo_create_core wrTest drv_bo_from_format_model (fun _ => 99)
        boEmpty 640 480 DRM_FORMAT_NV12 0).1.2.meta.num_planes = 2 ∧
    ((gbm_mesa_bo_create_core wrTest drv_bo_from_format_model (fun _ => 99)
        boEmpty 640 480 DRM_FORMAT_NV12 0).1.2.priv.map
      GbmMesaBoPriv.fds) = some [7, 7] := by
  decide

/-- Claim C5: the first allocation attempt is issued with scanout intent
as computed; if it succeeds there is no second attempt; if it fails and
camera usage did not force scanout, exactly one retry is issued whose
request differs from the first only in the cleared scanout intent; if
camera usage forced scanout, no retry happens and the backend's error is
returned; when the permitted attempts all fail the backend's (last)
error is returned and the buffer record's private state and plane keys
are left exactly as they were — nothing is allocated or left partially
constructed. -/
theorem claim_C5_scanout_retry (wr : GbmOps)
    (lf : Nat → Nat → Nat → Nat → BoLayout) (ino : Nat → Nat) (bo : Bo)
    (w h f u : Nat) :
    (∀ out, wr.alloc (create_request lf wr w h f u) = .ok out →
      (gbm_mesa_bo_create_core wr lf ino bo w h f u).2 =
        [create_request lf wr w h f u]) ∧
    (createCamera u = false → ∀ e,
      wr.alloc (create_request lf wr w h f u) = .error e →
      (gbm_mesa_bo_create_core wr lf ino bo w h f u).2 =
        [create_request lf wr w h f u,
         { create_request lf wr w h f u with use_scanout := false }]) ∧
    (createCamera u = true →
      (gbm_mesa_bo_create_core wr lf ino bo w h f u).2 =
        [create_request lf wr w h f u]) ∧
    (createCamera u = true → ∀ e,
      wr.alloc (create_request lf wr w h f u) = .error e →
      (gbm_mesa_bo_create_core wr lf ino bo w h f u).1.1 = e) ∧
    (createCamera u = false → ∀ e e2,
      wr.alloc (create_request lf wr w h f u) = .error e →
      wr.alloc { create_request lf wr w h f u with use_scanout := false } =
        .error e2 →
      (gbm_mesa_bo_create_core wr lf ino bo w h f u).1.1 = e2) ∧
    (∀ e, (gbm_mesa_bo_create_core wr lf ino bo w h f u).1.1 = e → e ≠ 0 →
      (gbm_mesa_bo_create_core wr lf ino bo w h f u).1.2.priv = bo.priv ∧
      (gbm_mesa_bo_create_core wr lf ino bo w h f u).1.2.handles =
        bo.handles) := by
  refine ⟨?_, ?_, ?_, ?_, ?_, ?_⟩
  · intro out hok
    unfold gbm_mesa_bo_create_core
    rw [alloc_with_retry_first_ok wr (createCamera u) _ out hok]
  · intro hcam e herr
    unfold gbm_mesa_bo_create_core
    rw [hcam]
    rcases h2 : wr.alloc
        { create_request lf wr w h f u with use_scanout := false } with
      e2 | out2
    · rw [alloc_with_retry_retry_err wr _ e e2 herr h2]
    · rw [alloc_with_retry_retry_ok wr _ e out2 herr h2]
  · intro hcam
    unfold gbm_mesa_bo_create_core
    rw [hcam]
    rcases h1 : wr.alloc (create_request lf wr w h f u) with e | out
    · rw [alloc_with_retry_strong_err wr _ e h1]
    · rw [alloc_with_retry_first_ok wr true _ out h1]
  · intro hcam e herr
    unfold gbm_mesa_bo_create_core
    rw [hcam, alloc_with_retry_strong_err wr _ e herr]
  · intro hcam e e2 herr h2
    unfold gbm_mesa_bo_create_core
    rw [hcam, alloc_with_retry_retry_err wr _ e e2 herr h2]
  · intro e he hne
    unfold gbm_mesa_bo_create_core at he ⊢
    rcases hr : alloc_with_retry wr (createCamera u)
        (create_request lf wr w h f u) with ⟨res, attempts⟩
    rw [hr] at he
    rcases res with e3 | ⟨af, out⟩
    · exact ⟨rfl, rfl⟩
    · exact absurd he.symm hne

theorem create_args1_height (wr : GbmOps) (w h f u : Nat) :
    (create_args1 wr w h f u).height = h := by
  simp only [create_args1, create_initial_args]
  split <;> rfl

theorem create_args1_width (wr : GbmOps) (w h f u : Nat) :
    (create_args1 wr w h f u).width =
      (if createCamera u then ALIGN w 32 else w) := by
  simp only [create_args1, create_initial_args]
  split <;> rfl

theorem create_args1_use_scanout_of_camera (wr : GbmOps) (w h f u : Nat)
    (hcam : createCamera u = true) :
    (create_args1 wr w h f u).use_scanout = true := by
  simp [create_args1, hcam]

theorem reshape_r8_use_scanout (a : AllocArgs) :
    (reshape_r8 a).use_scanout = a.use_scanout := by
  unfold reshape_r8
  split <;> rfl

theorem create_args2_use_scanout (lf : Nat → Nat → Nat → Nat → BoLayout)
    (wr : GbmOps) (w h f u : Nat) :
    (create_args2 lf wr w h f u).use_scanout =
      (create_args1 wr w h f u).use_scanout := by
  unfold create_args2
  split <;> rfl

theorem create_request_use_scanout (lf : Nat → Nat → Nat → Nat → BoLayout)
    (wr : GbmOps) (w h f u : Nat) :
    (create_request lf wr w h f u).use_scanout =
      (create_args1 wr w h f u).use_scanout := by
  unfold create_request
  rw [reshape_r8_use_scanout, create_args2_use_scanout]

theorem create_sp_total_eq (lf : Nat → Nat → Nat → Nat → BoLayout)
    (wr : GbmOps) (w h f u : Nat) :
    create_sp_total lf wr w h f u =
      ALIGN (lf (create_args1 wr w h f u).width 1 h f).total_size
        (create_size_align u) := by
  unfold create_sp_total create_sp_layout
  rw [create_args1_height]

theorem core_attempts_of_camera (wr : GbmOps)
    (lf : Nat → Nat → Nat → Nat → BoLayout) (ino : Nat → Nat) (bo : Bo)
    (w h f u : Nat) (hcam : createCamera u = true) :
    (gbm_mesa_bo_create_core wr lf ino bo w h f u).2 =
      [create_request lf wr w h f u] := by
  unfold gbm_mesa_bo_create_core
  rw [hcam]
  rcases h1 : wr.alloc (create_request lf wr w h f u) with e | out
  · rw [alloc_with_retry_strong_err wr _ e h1]
  · rw [alloc_with_retry_first_ok wr true _ out h1]

theorem core_spoofed_meta (wr : GbmOps)
    (lf : Nat → Nat → Nat → Nat → BoLayout) (ino : Nat → Nat) (bo : Bo)
    (w h f u : Nat) (hsp : create_spoofed wr f = true) :
    (gbm_mesa_bo_create_core wr lf ino bo w h f u).1.2.meta.total_size =
      create_sp_total lf wr w h f u ∧
    (gbm_mesa_bo_create_core wr lf ino bo w h f u).1.2.meta.num_planes =
      (create_sp_layout lf wr w h f u).num_planes := by
  unfold gbm_mesa_bo_create_core
  rw [hsp]
  rcases hr : alloc_with_retry wr (createCamera u)
      (create_request lf wr w h f u) with ⟨res, attempts⟩
  rcases res with e | ⟨af, out⟩
  · exact ⟨rfl, rfl⟩
  · exact ⟨rfl, rfl⟩

theorem ALIGN_mod_self (x a : Nat) : ALIGN x a % a = 0 := by
  unfold ALIGN
  exact Nat.mul_mod_left _ _

/-- Claim C3 counterexample: a camera-usage create call whose format the
backend allocates directly (R8, height 2, so neither the spoofed path
nor the 1-D reshape applies) succeeds with a computed total size of 256
bytes, which is not a multiple of 4096 — the 4096-byte size alignment is
applied only on the spoofed-format path, so "the final computed total
size is aligned to 4096 bytes" does not hold for every camera-usage
create call. -/
theorem claim_C3_counterexample :
    createCamera BO_USE_CAMERA_READ = true ∧
    (gbm_mesa_bo_create_core wrTest drv_bo_from_format_model (fun n => n)
        boEmpty 100 2 DRM_FORMAT_R8 BO_USE_CAMERA_READ).1.1 = 0 ∧
    (gbm_mesa_bo_create_core wrTest drv_bo_from_format_model (fun n => n)
        boEmpty 100 2 DRM_FORMAT_R8
        BO_USE_CAMERA_READ).1.2.meta.total_size = 256 ∧
    ¬(4096 ∣ 256) := by
  decide

/-- Claim C3 (amended): camera usage forces scanout intent on every
backend request regardless of the caller's scanout flag and rounds the
width up to the next multiple of 32 before layout computation and
request building (width 100 becomes 128 via `ALIGN 100 32`); the size
alignment is 4096 with camera usage and 1 without; the 4096 alignment is
applied to the computed total size on the spoofed-format path (where the
total is the layout of the camera-adjusted width and requested height,
rounded up to the size alignment, hence 4096-divisible under camera
usage); when the backend allocates the requested format directly the
total size is computed from the backend-reported stride with no
realignment; without camera usage the width is not realigned. -/
theorem claim_C3_camera_alignment (wr : GbmOps)
    (lf : Nat → Nat → Nat → Nat → BoLayout) (ino : Nat → Nat) (bo : Bo)
    (w h f u : Nat) :
    (createCamera u = true →
      ∀ a ∈ (gbm_mesa_bo_create_core wr lf ino bo w h f u).2,
        a.use_scanout = true) ∧
    (createCamera u = true → (create_args1 wr w h f u).width = ALIGN w 32) ∧
    (createCamera u = false → (create_args1 wr w h f u).width = w) ∧
    (createCamera u = false → create_size_align u = 1) ∧
    (createCamera u = true → create_size_align u = 4096) ∧
    (create_spoofed wr f = true →
      (gbm_mesa_bo_create_core wr lf ino bo w h f u).1.2.meta.total_size =
        ALIGN (lf (create_args1 wr w h f u).width 1 h f).total_size
          (create_size_align u)) ∧
    (createCamera u = true → create_spoofed wr f = true →
      (gbm_mesa_bo_create_core wr lf ino bo
          w h f u).1.2.meta.total_size % 4096 = 0) ∧
    (create_spoofed wr f = false → ∀ af out,
      (alloc_with_retry wr (createCamera u)
          (create_request lf wr w h f u)).1 = .ok (af, out) →
      (gbm_mesa_bo_create_core wr lf ino bo w h f u).1.2.meta.total_size =
        (lf out.out_stride 1 af.height f).total_size) := by
  refine ⟨?_, ?_, ?_, ?_, ?_, ?_, ?_, ?_⟩
  · intro hcam a ha
    rw [core_attempts_of_camera wr lf ino bo w h f u hcam] at ha
    simp only [List.mem_singleton] at ha
    subst ha
    rw [create_request_use_scanout]
    exact create_args1_use_scanout_of_camera wr w h f u hcam
  · intro hcam
    rw [create_args1_width, hcam]
    rfl
  · intro hcam
    rw [create_args1_width, hcam]
    rfl
  · intro hcam
    unfold create_size_align
    rw [hcam]
    rfl
  · intro hcam
    unfold create_size_align
    rw [hcam]
    rfl
  · intro hsp
    rw [(core_spoofed_meta wr lf ino bo w h f u hsp).1]
    exact create_sp_total_eq lf wr w h f u
  · intro hcam hsp
    rw [(core_spoofed_meta wr lf ino bo w h f u hsp).1,
      create_sp_total_eq lf wr w h f u]
    unfold create_size_align
    rw [hcam]
    exact ALIGN_mod_self _ _
  · intro hsp af out hok
    unfold gbm_mesa_bo_create_core
    rw [hsp]
    rcases hr : alloc_with_retry wr (createCamera u)
        (create_request lf wr w h f u) with ⟨res, attempts⟩
    rw [hr] at hok
    simp only at hok
    rw [hok]
    rfl

/-- Witness for the amended C3 at concrete inputs: a camera NV12 create
through a backend without direct NV12 support takes the spoofed path;
the width is adjusted from 100 to 128 and the computed total size is
4096-divisible. -/
theorem claim_C3_camera_alignment_witness :
    (create_args1 wrTest 100 2 DRM_FORMAT_NV12 BO_USE_CAMERA_READ).width =
      ALIGN 100 32 ∧
    (gbm_mesa_bo_create_core wrTest drv_bo_from_format_model (fun n => n)
        boEmpty 100 2 DRM_FORMAT_NV12
        BO_USE_CAMERA_READ).1.2.meta.total_size % 4096 = 0 := by
  have hth := claim_C3_camera_alignment wrTest drv_bo_from_format_model
    (fun n => n) boEmpty 100 2 DRM_FORMAT_NV12 BO_USE_CAMERA_READ
  exact ⟨hth.2.1 (by decide), hth.2.2.2.2.2.2.1 (by decide) (by decide)⟩

/-- Witness for C5 at concrete inputs: with a backend that always fails
with `-ENOMEM` and no camera usage, the trace shows the original request
followed by exactly one retry differing only in the cleared scanout
intent, the surfaced error is the backend's `-12`, and the buffer
record's private state is still unset. -/
theorem claim_C5_scanout_retry_witness :
    (gbm_mesa_bo_create_core wrFail drv_bo_from_format_model (fun n => n)
        boEmpty 64 64 DRM_FORMAT_XBGR8888 0).2 =
      [create_request drv_bo_from_format_model wrFail 64 64
         DRM_FORMAT_XBGR8888 0,
       { create_request drv_bo_from_format_model wrFail 64 64
           DRM_FORMAT_XBGR8888 0 with use_scanout := false }] ∧
    (gbm_mesa_bo_create_core wrFail drv_bo_from_format_model (fun n => n)
        boEmpty 64 64 DRM_FORMAT_XBGR8888 0).1.1 = -12 ∧
    (gbm_mesa_bo_create_core wrFail drv_bo_from_format_model (fun n => n)
        boEmpty 64 64 DRM_FORMAT_XBGR8888 0).1.2.priv = boEmpty.priv := by
  have hth := claim_C5_scanout_retry wrFail drv_bo_from_format_model
    (fun n => n) boEmpty 64 64 DRM_FORMAT_XBGR8888 0
  refine ⟨hth.2.1 (by decide) (-12) rfl,
    hth.2.2.2.2.1 (by decide) (-12) (-12) rfl rfl, ?_⟩
  exact (hth.2.2.2.2.2 (-12)
    (hth.2.2.2.2.1 (by decide) (-12) (-12) rfl rfl) (by decide)).1

/-- Claim C4: when the backend does not recognize the requested format,
the logical layout is computed from the (possibly camera-aligned) width
and the requested height at the requested format's packing and the total
is rounded up to the size alignment (first two conjuncts, which hold
whether or not the allocation then succeeds — so the later reshape never
changes the logically computed total size); the backend request first
becomes a forced-linear R8 request of width = total byte count and
height 1, and the issued request is its reshape into a 2-D request of
width 4096 and height = ceil(byte count / 4096) with the mapping-stride
request suppressed. -/
theorem claim_C4_spoofed_allocation (wr : GbmOps)
    (lf : Nat → Nat → Nat → Nat → BoLayout) (ino : Nat → Nat) (bo : Bo)
    (w h f u : Nat) (hf : wr.get_gbm_format f = 0) :
    (gbm_mesa_bo_create_core wr lf ino bo w h f u).1.2.meta.total_size =
      ALIGN (lf (create_args1 wr w h f u).width 1 h f).total_size
        (create_size_align u) ∧
    (gbm_mesa_bo_create_core wr lf ino bo w h f u).1.2.meta.num_planes =
      (lf (create_args1 wr w h f u).width 1 h f).num_planes ∧
    (create_args1 wr w h f u).width =
      (if createCamera u then ALIGN w 32 else w) ∧
    (create_args1 wr w h f u).height = h ∧
    create_args2 lf wr w h f u =
      { create_args1 wr w h f u with
        drm_format := DRM_FORMAT_R8,
        width := ALIGN (lf (create_args1 wr w h f u).width 1 h f).total_size
          (create_size_align u),
        height := 1, force_linear := true } ∧
    create_request lf wr w h f u =
      { create_args1 wr w h f u with
        drm_format := DRM_FORMAT_R8,
        width := 4096,
        height := DIV_ROUND_UP
          (ALIGN (lf (create_args1 wr w h f u).width 1 h f).total_size
            (create_size_align u)) 4096,
        force_linear := true, needs_map_stride := false } := by
  have hsp : create_spoofed wr f = true := by
    unfold create_spoofed
    rw [hf]
    rfl
  have htotal : create_sp_total lf wr w h f u =
      ALIGN (lf (create_args1 wr w h f u).width 1 h f).total_size
        (create_size_align u) := create_sp_total_eq lf wr w h f u
  have hargs2 : create_args2 lf wr w h f u =
      { create_args1 wr w h f u with
        drm_format := DRM_FORMAT_R8,
        width := ALIGN (lf (create_args1 wr w h f u).width 1 h f).total_size
          (create_size_align u),
        height := 1, force_linear := true } := by
    unfold create_args2
    rw [hsp, htotal]
    rfl
  refine ⟨?_, ?_, create_args1_width wr w h f u,
    create_args1_height wr w h f u, hargs2, ?_⟩
  · rw [(core_spoofed_meta wr lf ino bo w h f u hsp).1]
    exact htotal
  · rw [(core_spoofed_meta wr lf ino bo w h f u hsp).2]
    unfold create_sp_layout
    rw [create_args1_height]
  · unfold create_request
    rw [hargs2]
    unfold reshape_r8
    simp

/-- Witness for C4 at concrete inputs: a 64×64 NV12 create through a
backend that does not recognize NV12.  The two-plane NV12 layout totals
6144 bytes (no camera usage, so alignment 1); the issued request is a
forced-linear R8 request of 4096 × 2 with the mapping-stride request
suppressed, and the recorded total size stays 6144. -/
theorem claim_C4_spoofed_allocation_witness :
    (gbm_mesa_bo_create_core wrTest drv_bo_from_format_model (fun n => n)
        boEmpty 64 64 DRM_FORMAT_NV12 0).1.2.meta.total_size = 6144 ∧
    create_request drv_bo_from_format_model wrTest 64 64 DRM_FORMAT_NV12 0 =
      { width := 4096, height := 2, drm_format := DRM_FORMAT_R8,
        force_linear := true, needs_map_stride := false,
        use_scanout := false } := by
  have hth := claim_C4_spoofed_allocation wrTest drv_bo_from_format_model
    (fun n => n) boEmpty 64 64 DRM_FORMAT_NV12 0 (by decide)
  exact ⟨hth.1.trans (by decide), hth.2.2.2.2.2.trans (by decide)⟩

theorem inode_to_handle_priv (ino : Nat → Nat) (b : Bo) :
    (gbm_mesa_inode_to_handle ino b).priv = b.priv := by
  rcases b with ⟨m, hs, priv⟩
  cases priv <;> rfl

theorem inode_to_handle_handles (ino : Nat → Nat) (b : Bo)
    (p : GbmMesaBoPriv) (hp : b.priv = some p) :
    (gbm_mesa_inode_to_handle ino b).handles = p.fds.map ino := by
  rcases b with ⟨m, hs, priv⟩
  cases priv with
  | none => simp at hp
  | some q =>
    simp only [Option.some.injEq] at hp
    subst hp
    rfl

theorem core_cases (wr : GbmOps) (lf : Nat → Nat → Nat → Nat → BoLayout)
    (ino : Nat → Nat) (bo : Bo) (w h f u : Nat) :
    ((gbm_mesa_bo_create_core wr lf ino bo w h f u).1.2.priv = bo.priv ∧
     (gbm_mesa_bo_create_core wr lf ino bo w h f u).1.2.handles =
       bo.handles) ∨
    (∃ p, (gbm_mesa_bo_create_core wr lf ino bo w h f u).1.2.priv = some p ∧
      p.gbm_bo = none ∧
      (gbm_mesa_bo_create_core wr lf ino bo w h f u).1.2.handles =
        p.fds.map ino) := by
  unfold gbm_mesa_bo_create_core
  rcases hr : alloc_with_retry wr (createCamera u)
      (create_request lf wr w h f u) with ⟨res, at3⟩
  rcases res with e | ⟨af, out⟩
  · left
    exact ⟨rfl, rfl⟩
  · right
    refine ⟨_, ?_, rfl, inode_to_handle_handles ino _ _ rfl⟩
    rw [inode_to_handle_priv]

/-- Claim C6: an import call on a buffer record that already holds
private state fails immediately with `-EINVAL` and performs nothing: the
returned record and context are the inputs unchanged and the event list
is empty: no descriptor duplicated, no session obtained, and no backend
buffer-import call performed. -/
theorem claim_C6_import_on_populated (env : Env) (ctx : DrvCtx) (bo : Bo)
    (data : ImportData) (p : GbmMesaBoPriv) (hp : bo.priv = some p) :
    gbm_mesa_bo_import env ctx bo data = some (((-22 : Int), bo, ctx), []) := by
  unfold gbm_mesa_bo_import
  rw [hp]

/-- Witness for C6: importing into an already-populated record fails with
`-EINVAL`, returning the record and context unchanged with no events. -/
theorem claim_C6_import_on_populated_witness :
    gbm_mesa_bo_import envTest ctxEmpty boUsed dataTest =
      some (((-22 : Int), boUsed, ctxEmpty), []) :=
  claim_C6_import_on_populated envTest ctxEmpty boUsed dataTest
    { map_stride := 0, fds := [4], gbm_bo := none } rfl

/-- Claim C10: starting from an empty buffer record, the create path
never sets the backend mapping handle (whatever the format, usage flags
and backend behaviour); the import path yields a non-null mapping handle
only when the import metadata requests software access; consequently a
buffer produced by the create path always fails the non-null
mapping-handle precondition asserted by map. -/
theorem claim_C10_mapping_handle (wr : GbmOps)
    (lf : Nat → Nat → Nat → Nat → BoLayout) (ino : Nat → Nat) (env : Env)
    (ctx : DrvCtx) (bo : Bo) (data : ImportData) (w h f u : Nat)
    (hbo : bo.priv = none) :
    (∀ p, (gbm_mesa_bo_create_core wr lf ino bo w h f u).1.2.priv = some p →
      p.gbm_bo = none) ∧
    (∀ r ev p, gbm_mesa_bo_import env ctx bo data = some (r, ev) →
      r.2.1.priv = some p → p.gbm_bo ≠ none →
      (data.use_flags &&& BO_USE_SW_MASK) ≠ 0) ∧
    (∀ env2 ctx2, gbm_mesa_bo_map env2 ctx2
      (gbm_mesa_bo_create_core wr lf ino bo w h f u).1.2 = none) := by
  have hmain : ∀ p,
      (gbm_mesa_bo_create_core wr lf ino bo w h f u).1.2.priv = some p →
      p.gbm_bo = none := by
    intro p hp
    rcases core_cases wr lf ino bo w h f u with ⟨h1, _⟩ | ⟨q, hq1, hq2, _⟩
    · rw [h1, hbo] at hp
      exact absurd hp (by simp)
    · rw [hq1] at hp
      simp only [Option.some.injEq] at hp
      subst hp
      exact hq2
  refine ⟨hmain, ?_, ?_⟩
  · intro r ev p himp hpriv hnz
    by_cases hsw : (data.use_flags &&& BO_USE_SW_MASK) = 0
    · exfalso
      unfold gbm_mesa_bo_import at himp
      rw [hbo] at himp
      simp only [hsw, bne_self_eq_false, Bool.false_eq_true, if_false,
        Option.some.injEq] at himp
      rcases himp with ⟨rfl, rfl⟩
      simp only [inode_to_handle_priv, Option.some.injEq] at hpriv
      rw [← hpriv] at hnz
      exact hnz rfl
    · exact hsw
  · intro env2 ctx2
    unfold gbm_mesa_bo_map
    rcases hgi : gbm_mesa_get_or_init_driver env2 true ctx2 with ⟨od, c2, ev⟩
    rcases od with _ | d
    · rfl
    · rcases hw : d.wrapper with _ | wr2
      · simp only [hw]
      · simp only [hw]
        rcases hpv : (gbm_mesa_bo_create_core wr lf ino bo
            w h f u).1.2.priv with _ | p
        · rfl
        · simp only [hmain p hpv]

/-- Witness for C10: a buffer created through `wrTest` (a successful
allocation) cannot be mapped — the map entry point rejects it because
its mapping handle was never set. -/
theorem claim_C10_mapping_handle_witness :
    gbm_mesa_bo_map envTest ctxEmpty
      (gbm_mesa_bo_create_core wrTest drv_bo_from_format_model (fun n => n)
        boEmpty 64 64 DRM_FORMAT_XBGR8888 0).1.2 = none := by
  have hth := claim_C10_mapping_handle wrTest drv_bo_from_format_model
    (fun n => n) envTest ctxEmpty boEmpty dataTest 64 64
    DRM_FORMAT_XBGR8888 0 rfl
  exact hth.2.2 envTest ctxEmpty

theorem inode_to_handle_handles2 (ino : Nat → Nat) (m : BoMeta)
    (hs : List Nat) (p : GbmMesaBoPriv) :
    (gbm_mesa_inode_to_handle ino
      { meta := m, handles := hs, priv := some p }).handles =
      p.fds.map ino := rfl

theorem import_handles (env : Env) (ctx : DrvCtx) (bo : Bo)
    (data : ImportData) (r : Int × Bo × DrvCtx) (ev : List Event)
    (hb : bo.priv = none)
    (him : gbm_mesa_bo_import env ctx bo data = some (r, ev)) :
    r.2.1.handles = (List.range bo.meta.num_planes).map
      (fun i => env.fstat_ino (env.dup_fd (data.fds.getD i 0))) := by
  unfold gbm_mesa_bo_import at him
  rw [hb] at him
  by_cases hsw : ((data.use_flags &&& BO_USE_SW_MASK) != 0) = true
  · rw [if_pos hsw] at him
    rcases hgi : gbm_mesa_get_or_init_driver env true ctx with ⟨od, c2, ev2⟩
    rw [hgi] at him
    rcases od with _ | d
    · simp at him
    · rcases hw : d.wrapper with _ | wr
      · simp [hw] at him
      · simp only [hw, Option.some.injEq] at him
        rcases him with ⟨rfl, rfl⟩
        rw [inode_to_handle_handles2, List.map_map]
        rfl
  · rw [if_neg hsw] at him
    simp only [Option.some.injEq] at him
    rcases him with ⟨rfl, rfl⟩
    rw [inode_to_handle_handles2, List.map_map]
    rfl

/-- Claim C9: for every buffer, created or imported, the plane keys are
exactly the inode numbers of the plane descriptors (create stores the
backend descriptor in every slot; import stores a dup of each caller
descriptor, which reports the same inode as its source, so the keys
equal the inodes of the caller's descriptors); consequently two imports
whose plane descriptors are dups of the same underlying allocations
(plane-wise equal inodes) yield equal key lists, and imports with some
plane from different allocations (a differing inode) yield different
key lists.  The hypothesis `hdup` is the kernel invariant that `dup`
preserves the inode reported by `fstat` (spec §4.6). -/
theorem claim_C9_inode_unique_keys (wr : GbmOps)
    (lf : Nat → Nat → Nat → Nat → BoLayout) (env : Env) (ctx : DrvCtx)
    (bo bo1 bo2 : Bo) (data1 data2 : ImportData) (w h f u : Nat)
    (hdup : ∀ fd, env.fstat_ino (env.dup_fd fd) = env.fstat_ino fd) :
    (bo.priv = none → ∀ p,
      (gbm_mesa_bo_create_core wr lf env.fstat_ino bo
        w h f u).1.2.priv = some p →
      (gbm_mesa_bo_create_core wr lf env.fstat_ino bo
        w h f u).1.2.handles = p.fds.map env.fstat_ino) ∧
    (bo1.priv = none → ∀ r ev,
      gbm_mesa_bo_import env ctx bo1 data1 = some (r, ev) →
      r.2.1.handles = (List.range bo1.meta.num_planes).map
        (fun i => env.fstat_ino (data1.fds.getD i 0))) ∧
    (bo1.priv = none → bo2.priv = none →
      bo1.meta.num_planes = bo2.meta.num_planes →
      (∀ i, i < bo1.meta.num_planes →
        env.fstat_ino (data1.fds.getD i 0) =
          env.fstat_ino (data2.fds.getD i 0)) →
      ∀ r1 ev1 r2 ev2,
        gbm_mesa_bo_import env ctx bo1 data1 = some (r1, ev1) →
        gbm_mesa_bo_import env ctx bo2 data2 = some (r2, ev2) →
        r1.2.1.handles = r2.2.1.handles) ∧
    (bo1.priv = none → bo2.priv = none →
      bo1.meta.num_planes = bo2.meta.num_planes →
      (∃ i, i < bo1.meta.num_planes ∧
        env.fstat_ino (data1.fds.getD i 0) ≠
          env.fstat_ino (data2.fds.getD i 0)) →
      ∀ r1 ev1 r2 ev2,
        gbm_mesa_bo_import env ctx bo1 data1 = some (r1, ev1) →
        gbm_mesa_bo_import env ctx bo2 data2 = some (r2, ev2) →
        r1.2.1.handles ≠ r2.2.1.handles) := by
  refine ⟨?_, ?_, ?_, ?_⟩
  · intro hb p hp
    rcases core_cases wr lf env.fstat_ino bo w h f u with
      ⟨h1, _⟩ | ⟨q, hq1, _, hq3⟩
    · rw [h1, hb] at hp
      exact absurd hp (by simp)
    · rw [hq1] at hp
      simp only [Option.some.injEq] at hp
      subst hp
      exact hq3
  · intro hb1 r ev him
    rw [import_handles env ctx bo1 data1 r ev hb1 him]
    exact List.map_congr_left fun i _ => hdup _
  · intro hb1 hb2 hn heq r1 ev1 r2 ev2 him1 him2
    rw [import_handles env ctx bo1 data1 r1 ev1 hb1 him1,
      import_handles env ctx bo2 data2 r2 ev2 hb2 him2, ← hn]
    refine List.map_congr_left fun i hi => ?_
    rw [hdup, hdup]
    exact heq i (List.mem_range.mp hi)
  · intro hb1 hb2 hn hex r1 ev1 r2 ev2 him1 him2 hEq
    obtain ⟨i, hi, hne⟩ := hex
    apply hne
    rw [import_handles env ctx bo1 data1 r1 ev1 hb1 him1,
      import_handles env ctx bo2 data2 r2 ev2 hb2 him2, ← hn] at hEq
    have hpt := List.map_inj_left.mp hEq i (List.mem_range.mpr hi)
    rw [hdup, hdup] at hpt
    exact hpt

/-- Witness for C9 at concrete inputs: a created one-plane buffer's key
list is the inode of the backend descriptor; descriptor 5 and its dup
(descriptor 105, same inode) give equal key lists when imported; the
independent descriptor 6 gives a different key list. -/
theorem claim_C9_inode_unique_keys_witness :
    (gbm_mesa_bo_create_core wrTest drv_bo_from_format_model
      envTest.fstat_ino boEmpty 64 64 DRM_FORMAT_XBGR8888 0).1.2.handles =
      [7] ∧
    boRes5.handles = boResDup.handles ∧
    boRes5.handles ≠ boRes6.handles := by
  have hdup : ∀ fd,
      envTest.fstat_ino (envTest.dup_fd fd) = envTest.fstat_ino fd := by
    intro fd
    show (fd + 100) % 100 = fd % 100
    omega
  have hth1 := claim_C9_inode_unique_keys wrTest drv_bo_from_format_model
    envTest ctxEmpty boEmpty boOnePlane boOnePlane dataTest dataDup
    64 64 DRM_FORMAT_XBGR8888 0 hdup
  have hth2 := claim_C9_inode_unique_keys wrTest drv_bo_from_format_model
    envTest ctxEmpty boEmpty boOnePlane boOnePlane dataTest dataOther
    64 64 DRM_FORMAT_XBGR8888 0 hdup
  refine ⟨(hth1.1 rfl _ rfl).trans (by decide), ?_, ?_⟩
  · exact hth1.2.2.1 rfl rfl rfl (by decide)
      ((0 : Int), boRes5, ctxEmpty) [Event.dupCall 5]
      ((0 : Int), boResDup, ctxEmpty) [Event.dupCall 105] rfl rfl
  · exact hth2.2.2.2 rfl rfl rfl ⟨0, by decide, by decide⟩
      ((0 : Int), boRes5, ctxEmpty) [Event.dupCall 5]
      ((0 : Int), boRes6, ctxEmpty) [Event.dupCall 6] rfl rfl


theorem openedFds_append (a b : List Event) :
    openedFds (a ++ b) = openedFds a ++ openedFds b :=
  List.filterMap_append a b _

theorem closedFds_append (a b : List Event) :
    closedFds (a ++ b) = closedFds a ++ closedFds b :=
  List.filterMap_append a b _

theorem destroy_openedFds (d : GbmMesaDriver) :
    openedFds (GbmMesaDriver_destroy d) = [] := by
  rcases d with ⟨w, gd, dl, gbm, gpu⟩
  rcases gd <;> rcases dl <;> rcases gbm <;> rcases gpu <;> rfl

theorem destroy_closedFds (d : GbmMesaDriver) :
    closedFds (GbmMesaDriver_destroy d) =
      (match d.gpu_node_fd with | some f => [f] | none => []) ++
      (match d.gbm_node_fd with | some f => [f] | none => []) := by
  rcases d with ⟨w, gd, dl, gbm, gpu⟩
  rcases gd <;> rcases dl <;> rcases gbm <;> rcases gpu <;> rfl

theorem destroy_countP_dlopen (d : GbmMesaDriver) :
    (GbmMesaDriver_destroy d).countP isDlopenEvent = 0 := by
  rcases d with ⟨w, gd, dl, gbm, gpu⟩
  rcases gd <;> rcases dl <;> rcases gbm <;> rcases gpu <;> rfl

theorem destroy_countP_dlclose (d : GbmMesaDriver) :
    (GbmMesaDriver_destroy d).countP isDlcloseEvent =
      (if d.dl_handle.isSome then 1 else 0) := by
  rcases d with ⟨w, gd, dl, gbm, gpu⟩
  rcases gd <;> rcases dl <;> rcases gbm <;> rcases gpu <;> rfl

theorem destroy_countP_devDestroy (d : GbmMesaDriver) :
    (GbmMesaDriver_destroy d).countP isDevDestroyEvent =
      (if d.gbm_dev.isSome then 1 else 0) := by
  rcases d with ⟨w, gd, dl, gbm, gpu⟩
  rcases gd <;> rcases dl <;> rcases gbm <;> rcases gpu <;> rfl

theorem destroy_countP_devCreate (d : GbmMesaDriver) :
    (GbmMesaDriver_destroy d).countP isDevCreateEvent = 0 := by
  rcases d with ⟨w, gd, dl, gbm, gpu⟩
  rcases gd <;> rcases dl <;> rcases gbm <;> rcases gpu <;> rfl

theorem openedFds_dlopen : openedFds [Event.dlopenCall] = [] := rfl

theorem closedFds_dlopen : closedFds [Event.dlopenCall] = [] := rfl

theorem openedFds_devCreate : openedFds [Event.devCreateCall] = [] := rfl

theorem closedFds_devCreate : closedFds [Event.devCreateCall] = [] := rfl

theorem openedFds_cons_dlopen (l : List Event) :
    openedFds (Event.dlopenCall :: l) = openedFds l := rfl

theorem closedFds_cons_dlopen (l : List Event) :
    closedFds (Event.dlopenCall :: l) = closedFds l := rfl

theorem openedFds_cons_devCreate (l : List Event) :
    openedFds (Event.devCreateCall :: l) = openedFds l := rfl

theorem closedFds_cons_devCreate (l : List Event) :
    closedFds (Event.devCreateCall :: l) = closedFds l := rfl

theorem init_rest_failure (env : Env) (gbm1 gpu1 : Option Nat)
    (ev1 : List Event)
    (hopen : openedFds ev1 =
      (match gpu1 with | some f => [f] | none => []) ++
      (match gbm1 with | some f => [f] | none => []))
    (hclose : closedFds ev1 = [])
    (h1 : ev1.countP isDlopenEvent = 0)
    (h2 : ev1.countP isDlcloseEvent = 0)
    (h3 : ev1.countP isDevDestroyEvent = 0)
    (h4 : ev1.countP isDevCreateEvent = 0)
    (ev : List Event)
    (h : gbm_mesa_init_driver_rest env
      { wrapper := none, gbm_dev := none, dl_handle := none,
        gbm_node_fd := gbm1, gpu_node_fd := gpu1 } ev1 = (none, ev)) :
    openedFds ev = closedFds ev ∧
    ev.countP isDlopenEvent = ev.countP isDlcloseEvent ∧
    ev.countP isDevDestroyEvent = 0 ∧
    ev.countP isDevCreateEvent ≤ 1 := by
  unfold gbm_mesa_init_driver_rest at h
  cases gbm1 with
  | none =>
    rcases h with ⟨-, rfl⟩
    refine ⟨?_, ?_, ?_, ?_⟩ <;>
      simp [openedFds_append, closedFds_append, destroy_openedFds,
        destroy_closedFds, destroy_countP_dlopen, destroy_countP_dlclose,
        destroy_countP_devDestroy, destroy_countP_devCreate,
        List.countP_append, hopen, hclose, h1, h2, h3, h4,
        openedFds_dlopen, closedFds_dlopen, openedFds_devCreate,
        closedFds_devCreate, openedFds_cons_dlopen, closedFds_cons_dlopen, openedFds_cons_devCreate, closedFds_cons_devCreate, isDlopenEvent, isDlcloseEvent,
        isDevDestroyEvent, isDevCreateEvent, List.countP_cons]
  | some node =>
    cases hdl : env.dlopen_ok with
    | false =>
      simp only [hdl] at h
      rcases h with ⟨-, rfl⟩
      refine ⟨?_, ?_, ?_, ?_⟩ <;>
        simp [openedFds_append, closedFds_append, destroy_openedFds,
          destroy_closedFds, destroy_countP_dlopen, destroy_countP_dlclose,
          destroy_countP_devDestroy, destroy_countP_devCreate,
          List.countP_append, hopen, hclose, h1, h2, h3, h4,
          openedFds_dlopen, closedFds_dlopen, openedFds_devCreate,
          closedFds_devCreate, openedFds_cons_dlopen, closedFds_cons_dlopen, openedFds_cons_devCreate, closedFds_cons_devCreate, isDlopenEvent, isDlcloseEvent,
          isDevDestroyEvent, isDevCreateEvent, List.countP_cons]
    | true =>
      simp only [hdl] at h
      cases hsym : env.get_ops_sym with
      | false =>
        simp only [hsym] at h
        rcases h with ⟨-, rfl⟩
        refine ⟨?_, ?_, ?_, ?_⟩ <;>
          simp [openedFds_append, closedFds_append, destroy_openedFds,
            destroy_closedFds, destroy_countP_dlopen,
            destroy_countP_dlclose, destroy_countP_devDestroy,
            destroy_countP_devCreate, List.countP_append, hopen, hclose,
            h1, h2, h3, h4, openedFds_dlopen, closedFds_dlopen,
            openedFds_devCreate, closedFds_devCreate, openedFds_cons_dlopen, closedFds_cons_dlopen, openedFds_cons_devCreate, closedFds_cons_devCreate, isDlopenEvent,
            isDlcloseEvent, isDevDestroyEvent, isDevCreateEvent,
            List.countP_cons]
      | true =>
        simp only [hsym] at h
        cases hops : env.ops with
        | none =>
          simp only [hops] at h
          rcases h with ⟨-, rfl⟩
          refine ⟨?_, ?_, ?_, ?_⟩ <;>
            simp [openedFds_append, closedFds_append, destroy_openedFds,
              destroy_closedFds, destroy_countP_dlopen,
              destroy_countP_dlclose, destroy_countP_devDestroy,
              destroy_countP_devCreate, List.countP_append, hopen, hclose,
              h1, h2, h3, h4, openedFds_dlopen, closedFds_dlopen,
              openedFds_devCreate, closedFds_devCreate, openedFds_cons_dlopen, closedFds_cons_dlopen, openedFds_cons_devCreate, closedFds_cons_devCreate, isDlopenEvent,
              isDlcloseEvent, isDevDestroyEvent, isDevCreateEvent,
              List.countP_cons]
        | some ops =>
          simp only [hops] at h
          cases hdev : ops.dev_create node with
          | none =>
            simp only [hdev] at h
            rcases h with ⟨-, rfl⟩
            refine ⟨?_, ?_, ?_, ?_⟩ <;>
              simp [openedFds_append, closedFds_append, destroy_openedFds,
                destroy_closedFds, destroy_countP_dlopen,
                destroy_countP_dlclose, destroy_countP_devDestroy,
                destroy_countP_devCreate, List.countP_append, hopen,
                hclose, h1, h2, h3, h4, openedFds_dlopen, closedFds_dlopen,
                openedFds_devCreate, closedFds_devCreate, openedFds_cons_dlopen, closedFds_cons_dlopen, openedFds_cons_devCreate, closedFds_cons_devCreate, isDlopenEvent,
                isDlcloseEvent, isDevDestroyEvent, isDevCreateEvent,
                List.countP_cons]
          | some dev =>
            simp only [hdev] at h
            exact absurd h (by simp)

theorem init_rest_success (env : Env) (gbm1 gpu1 : Option Nat)
    (ev1 : List Event)
    (h1 : ev1.countP isDlopenEvent = 0)
    (h4 : ev1.countP isDevCreateEvent = 0)
    (d : GbmMesaDriver) (ev : List Event)
    (h : gbm_mesa_init_driver_rest env
      { wrapper := none, gbm_dev := none, dl_handle := none,
        gbm_node_fd := gbm1, gpu_node_fd := gpu1 } ev1 = (some d, ev)) :
    ev.countP isDlopenEvent = 1 ∧ ev.countP isDevCreateEvent = 1 := by
  unfold gbm_mesa_init_driver_rest at h
  cases gbm1 with
  | none => exact absurd h (by simp)
  | some node =>
    cases hdl : env.dlopen_ok with
    | false =>
      simp only [hdl] at h
      exact absurd h (by simp)
    | true =>
      simp only [hdl] at h
      cases hsym : env.get_ops_sym with
      | false =>
        simp only [hsym] at h
        exact absurd h (by simp)
      | true =>
        simp only [hsym] at h
        cases hops : env.ops with
        | none =>
          simp only [hops] at h
          exact absurd h (by simp)
        | some ops =>
          simp only [hops] at h
          cases hdev : ops.dev_create node with
          | none =>
            simp only [hdev] at h
            exact absurd h (by simp)
          | some dev =>
            simp only [hdev] at h
            rcases h with ⟨-, rfl⟩
            constructor <;>
              simp [List.countP_append, h1, h4, isDlopenEvent,
                isDevCreateEvent, List.countP_cons]

theorem init_driver_step1_events (env : Env) (m : Bool) :
    ∃ gbm1 ev1,
      gbm_mesa_init_driver env m = gbm_mesa_init_driver_rest env
        { wrapper := none, gbm_dev := none, dl_handle := none,
          gbm_node_fd := gbm1, gpu_node_fd := env.gpu_fd } ev1 ∧
      openedFds ev1 =
        (match env.gpu_fd with | some f => [f] | none => []) ++
        (match gbm1 with | some f => [f] | none => []) ∧
      closedFds ev1 = [] ∧
      ev1.countP isDlopenEvent = 0 ∧
      ev1.countP isDlcloseEvent = 0 ∧
      ev1.countP isDevDestroyEvent = 0 ∧
      ev1.countP isDevCreateEvent = 0 := by
  cases hsep : env.separate_dc && !m with
  | true =>
    refine ⟨env.kms_fd,
      (match env.gpu_fd with
        | some f => [Event.openFd f] | none => []) ++
      (match env.kms_fd with
        | some f => [Event.openFd f] | none => []),
      ?_, ?_, ?_, ?_, ?_, ?_, ?_⟩
    · unfold gbm_mesa_init_driver
      rw [hsep]
      rfl
    all_goals
      rcases env.gpu_fd with _ | g <;> rcases env.kms_fd with _ | k <;>
        simp [openedFds, closedFds, isDlopenEvent, isDlcloseEvent,
          isDevDestroyEvent, isDevCreateEvent, List.countP_cons]
  | false =>
    refine ⟨env.gpu_fd.map env.dup_fd,
      (match env.gpu_fd with
        | some f => [Event.openFd f] | none => []) ++
      (match env.gpu_fd with
        | some f => [Event.openFd (env.dup_fd f)] | none => []),
      ?_, ?_, ?_, ?_, ?_, ?_, ?_⟩
    · unfold gbm_mesa_init_driver
      rw [hsep]
      rfl
    all_goals
      rcases env.gpu_fd with _ | g <;>
        simp [openedFds, closedFds, isDlopenEvent, isDlcloseEvent,
          isDevDestroyEvent, isDevCreateEvent, List.countP_cons]

theorem init_driver_failure_events (env : Env) (m : Bool) (ev : List Event)
    (h : gbm_mesa_init_driver env m = (none, ev)) :
    openedFds ev = closedFds ev ∧
    ev.countP isDlopenEvent = ev.countP isDlcloseEvent ∧
    ev.countP isDevDestroyEvent = 0 ∧
    ev.countP isDevCreateEvent ≤ 1 := by
  obtain ⟨gbm1, ev1, heq, hopen, hclose, h1, h2, h3, h4⟩ :=
    init_driver_step1_events env m
  rw [heq] at h
  exact init_rest_failure env gbm1 env.gpu_fd ev1 hopen hclose h1 h2 h3 h4
    ev h

theorem init_driver_success_events (env : Env) (m : Bool)
    (d : GbmMesaDriver) (ev : List Event)
    (h : gbm_mesa_init_driver env m = (some d, ev)) :
    ev.countP isDlopenEvent = 1 ∧ ev.countP isDevCreateEvent = 1 := by
  obtain ⟨gbm1, ev1, heq, hopen, hclose, h1, h2, h3, h4⟩ :=
    init_driver_step1_events env m
  rw [heq] at h
  exact init_rest_success env gbm1 env.gpu_fd ev1 h1 h4 d ev h

/-- Claim C7: session construction is idempotent per driver context.  A
context that already caches a session returns it unchanged with no
events (no module load, no device creation).  A first call on an empty
context that succeeds caches the constructed session on the context,
performs exactly one module load and exactly one backend
device-creation call, and any subsequent call on the resulting context
(with any environment and mode) returns the cached session with no
further events. -/
theorem claim_C7_session_idempotent (env env2 : Env) (m m2 : Bool)
    (ctx : DrvCtx) :
    (∀ s, ctx.priv = some s →
      gbm_mesa_get_or_init_driver env m ctx = (some s, ctx, [])) ∧
    (ctx.priv = none → ∀ d ctx2 ev,
      gbm_mesa_get_or_init_driver env m ctx = (some d, ctx2, ev) →
      ctx2.priv = some d ∧
      ev.countP isDlopenEvent = 1 ∧
      ev.countP isDevCreateEvent = 1 ∧
      gbm_mesa_get_or_init_driver env2 m2 ctx2 = (some d, ctx2, [])) := by
  constructor
  · intro s hs
    unfold gbm_mesa_get_or_init_driver
    rw [hs]
  · intro hc d ctx2 ev h
    unfold gbm_mesa_get_or_init_driver at h
    rw [hc] at h
    rcases hi : gbm_mesa_init_driver env m with ⟨od, ev0⟩
    rw [hi] at h
    rcases od with _ | d0
    · exact absurd h (by simp)
    · simp only [Prod.mk.injEq, Option.some.injEq] at h
      obtain ⟨rfl, rfl, rfl⟩ := h
      obtain ⟨hc1, hc2⟩ := init_driver_success_events env m d0 ev0 hi
      refine ⟨rfl, hc1, hc2, ?_⟩
      unfold gbm_mesa_get_or_init_driver
      rfl

/-- Witness for C7: under `envTest`, a first call on an empty context
constructs and caches `dTest` with exactly one module load; a second
call on the populated context returns the cached session with no
events. -/
theorem claim_C7_session_idempotent_witness :
    gbm_mesa_get_or_init_driver envTest false { priv := some dTest } =
      (some dTest, { priv := some dTest }, []) ∧
    ([Event.openFd 3, Event.openFd 103, Event.dlopenCall,
      Event.devCreateCall].countP isDlopenEvent) = 1 := by
  have hth := claim_C7_session_idempotent envTest envTest false false
    ctxEmpty
  have h2 := hth.2 rfl dTest { priv := some dTest }
    [Event.openFd 3, Event.openFd 103, Event.dlopenCall,
     Event.devCreateCall] rfl
  exact ⟨h2.2.2.2, h2.2.1⟩

/-- Claim C8: if session construction fails at any step, every resource
acquired up to that point is released: the failure event trace closes
exactly the descriptors it opened (same descriptors, same order),
balances module loads with module unloads, destroys no backend device
(none was ever created at a failure point, device creation being the
final step) and contains at most one device-creation attempt; the
session destructor always destroys the backend device handle before
unloading the module when both are present; no session is cached on the
context, and a buffer-creation call in that situation surfaces the
negative error `-EINVAL` with the buffer record untouched. -/
theorem claim_C8_construction_failure_cleanup (env : Env) (m : Bool)
    (ctx : DrvCtx) (lf : Nat → Nat → Nat → Nat → BoLayout) (bo : Bo)
    (w h f u : Nat) (hc : ctx.priv = none) :
    (∀ ctx2 ev, gbm_mesa_get_or_init_driver env m ctx = (none, ctx2, ev) →
      ctx2 = ctx ∧
      openedFds ev = closedFds ev ∧
      ev.countP isDlopenEvent = ev.countP isDlcloseEvent ∧
      ev.countP isDevDestroyEvent = 0 ∧
      ev.countP isDevCreateEvent ≤ 1) ∧
    (∀ d : GbmMesaDriver, d.gbm_dev.isSome = true →
      d.dl_handle.isSome = true →
      ∃ rest, GbmMesaDriver_destroy d =
        Event.devDestroyCall :: Event.dlcloseCall :: rest) ∧
    ((gbm_mesa_init_driver env false).1 = none →
      gbm_mesa_bo_create env lf ctx bo w h f u =
        some (((-22 : Int), bo, ctx),
              (gbm_mesa_init_driver env false).2, [])) := by
  refine ⟨?_, ?_, ?_⟩
  · intro ctx2 ev hgi
    unfold gbm_mesa_get_or_init_driver at hgi
    rw [hc] at hgi
    rcases hi : gbm_mesa_init_driver env m with ⟨od, ev0⟩
    rw [hi] at hgi
    rcases od with _ | d0
    · simp only [Prod.mk.injEq] at hgi
      obtain ⟨-, rfl, rfl⟩ := hgi
      exact ⟨rfl, init_driver_failure_events env m ev0 hi⟩
    · exact absurd hgi (by simp)
  · intro d hdev hdl
    rcases d with ⟨w1, gd, dl, gbm, gpu⟩
    simp only [Option.isSome] at hdev hdl
    rcases gd with _ | dev
    · exact absurd hdev (by simp)
    · rcases dl with _ | dlh
      · exact absurd hdl (by simp)
      · rcases gbm with _ | b <;> rcases gpu with _ | g <;>
          exact ⟨_, rfl⟩
  · intro hif
    unfold gbm_mesa_bo_create gbm_mesa_get_or_init_driver
    rw [hc]
    rcases hi : gbm_mesa_init_driver env false with ⟨od, ev0⟩
    rw [hi] at hif
    simp only at hif
    subst hif
    rfl

/-- Witness for C8: under `envNoModule` (module load fails) the session
construction failure trace opens descriptors 3 and 103 and closes
exactly those, loads no module and destroys no device; buffer creation
surfaces `-EINVAL` with the record untouched. -/
theorem claim_C8_construction_failure_cleanup_witness :
    openedFds [Event.openFd 3, Event.openFd 103, Event.closeFd 3,
      Event.closeFd 103] =
      closedFds [Event.openFd 3, Event.openFd 103, Event.closeFd 3,
        Event.closeFd 103] ∧
    gbm_mesa_bo_create envNoModule drv_bo_from_format_model ctxEmpty
      boEmpty 64 64 DRM_FORMAT_XBGR8888 0 =
      some (((-22 : Int), boEmpty, ctxEmpty),
            [Event.openFd 3, Event.openFd 103, Event.closeFd 3,
             Event.closeFd 103], []) := by
  have hth := claim_C8_construction_failure_cleanup envNoModule false
    ctxEmpty drv_bo_from_format_model boEmpty 64 64 DRM_FORMAT_XBGR8888 0
    rfl
  have h1 := hth.1 ctxEmpty
    [Event.openFd 3, Event.openFd 103, Event.closeFd 3, Event.closeFd 103]
    rfl
  exact ⟨h1.2.1, hth.2.2 rfl⟩
